import Mathlib

set_option maxRecDepth 4000

/-- JSON values as produced by JavaScript JSON.parse. Numbers keep their raw
lexical form (no claim in this development inspects numeric magnitude, only
JavaScript truthiness, for which the lexical form suffices). Object fields are
kept in source order; JavaScript keeps the last occurrence of a duplicated key,
which the lookup function below reproduces. -/
inductive Json where
  | null : Json
  | bool (b : Bool) : Json
  | num (raw : String) : Json
  | str (s : String) : Json
  | arr (elems : List Json) : Json
  | obj (fields : List (String × Json)) : Json
deriving Repr

/-- The left-brace character, written via its code point. -/
def lbrace : Char := Char.ofNat 123

/-- The right-brace character, written via its code point. -/
def rbrace : Char := Char.ofNat 125

/-- JSON whitespace characters accepted by JSON.parse. -/
def jsonWs (c : Char) : Bool :=
  c = ' ' || c = '\t' || c = '\n' || c = '\r'

/-- Drop leading JSON whitespace. -/
def skipWs : List Char → List Char
  | c :: cs => if jsonWs c then skipWs cs else c :: cs
  | [] => []

/-- Value of one hexadecimal digit. -/
def hexVal (c : Char) : Option Nat :=
  if '0' ≤ c ∧ c ≤ '9' then some (c.toNat - 48)
  else if 'a' ≤ c ∧ c ≤ 'f' then some (c.toNat - 87)
  else if 'A' ≤ c ∧ c ≤ 'F' then some (c.toNat - 55)
  else none

/-- Simple one-character JSON string escapes. -/
def escChar (e : Char) : Option Char :=
  if e = '"' then some '"'
  else if e = '\\' then some '\\'
  else if e = '/' then some '/'
  else if e = 'b' then some (Char.ofNat 8)
  else if e = 'f' then some (Char.ofNat 12)
  else if e = 'n' then some '\n'
  else if e = 'r' then some '\r'
  else if e = 't' then some '\t'
  else none

/-- Parse the body of a JSON string after the opening quote, returning the
decoded characters and the input remaining after the closing quote. Raw
control characters are rejected, as JSON.parse rejects them. -/
def parseStringBody : List Char → Option (List Char × List Char)
  | [] => none
  | '"' :: rest => some ([], rest)
  | '\\' :: 'u' :: a :: b :: c :: d :: rest =>
    (match hexVal a, hexVal b, hexVal c, hexVal d with
     | some x, some y, some z, some w =>
       (parseStringBody rest).map
         (fun p => (Char.ofNat (((x * 16 + y) * 16 + z) * 16 + w) :: p.1, p.2))
     | _, _, _, _ => none)
  | '\\' :: e :: rest =>
    (match escChar e with
     | some ch => (parseStringBody rest).map (fun p => (ch :: p.1, p.2))
     | none => none)
  | c :: rest =>
    if c.toNat < 32 then none
    else (parseStringBody rest).map (fun p => (c :: p.1, p.2))

/-- Decimal digit test. -/
def isDigit (c : Char) : Bool := '0' ≤ c && c ≤ '9'

/-- Split a leading run of decimal digits from the input. -/
def takeDigits : List Char → (List Char × List Char)
  | [] => ([], [])
  | c :: cs =>
    if isDigit c then
      let p := takeDigits cs
      (c :: p.1, p.2)
    else ([], c :: cs)

/-- Integer part of a JSON number: a lone zero or a nonzero digit followed by
digits (JSON.parse rejects leading zeros). -/
def parseIntPart : List Char → Option (List Char × List Char)
  | [] => none
  | '0' :: cs => some (['0'], cs)
  | c :: cs =>
    if isDigit c then
      let p := takeDigits cs
      some (c :: p.1, p.2)
    else none

/-- Optional fraction part of a JSON number. -/
def parseFracPart : List Char → Option (List Char × List Char)
  | '.' :: cs =>
    let p := takeDigits cs
    if p.1.isEmpty then none else some ('.' :: p.1, p.2)
  | cs => some ([], cs)

/-- Optional exponent part of a JSON number. -/
def parseExpPart : List Char → Option (List Char × List Char)
  | [] => some ([], [])
  | e :: cs =>
    if e = 'e' || e = 'E' then
      match cs with
      | [] => none
      | s :: cs2 =>
        if s = '+' || s = '-' then
          let p := takeDigits cs2
          if p.1.isEmpty then none else some (e :: s :: p.1, p.2)
        else
          let p := takeDigits (s :: cs2)
          if p.1.isEmpty then none else some (e :: p.1, p.2)
    else some ([], e :: cs)

/-- Parse a JSON number, keeping its raw lexical form. -/
def parseNumber (cs : List Char) : Option (Json × List Char) :=
  let sp : List Char × List Char :=
    match cs with
    | '-' :: r => (['-'], r)
    | r => ([], r)
  match parseIntPart sp.2 with
  | none => none
  | some (ip, cs2) =>
    match parseFracPart cs2 with
    | none => none
    | some (fp, cs3) =>
      match parseExpPart cs3 with
      | none => none
      | some (ep, cs4) => some (Json.num (String.mk (sp.1 ++ ip ++ fp ++ ep)), cs4)

mutual

/-- Recursive-descent parse of one JSON value. The fuel argument only bounds
recursion depth; parseJson below supplies fuel that provably exceeds any
reachable depth for its input, so the fuel-exhausted branch is inert. -/
def parseValue : Nat → List Char → Option (Json × List Char)
  | 0, _ => none
  | fuel + 1, cs =>
    match skipWs cs with
    | 'n' :: 'u' :: 'l' :: 'l' :: rest => some (Json.null, rest)
    | 't' :: 'r' :: 'u' :: 'e' :: rest => some (Json.bool true, rest)
    | 'f' :: 'a' :: 'l' :: 's' :: 'e' :: rest => some (Json.bool false, rest)
    | '"' :: rest => (parseStringBody rest).map (fun p => (Json.str (String.mk p.1), p.2))
    | '[' :: rest => parseArrayTail fuel rest
    | c :: rest =>
      if c = lbrace then parseObjTail fuel rest else parseNumber (c :: rest)
    | [] => none

/-- Parse the remainder of a JSON array after the opening bracket. -/
def parseArrayTail : Nat → List Char → Option (Json × List Char)
  | 0, _ => none
  | fuel + 1, cs =>
    match skipWs cs with
    | ']' :: rest => some (Json.arr [], rest)
    | cs2 =>
      match parseValue fuel cs2 with
      | none => none
      | some (v, rest) =>
        match parseElems fuel rest with
        | none => none
        | some (vs, rest2) => some (Json.arr (v :: vs), rest2)

/-- Parse the comma-separated continuation of a JSON array. -/
def parseElems : Nat → List Char → Option (List Json × List Char)
  | 0, _ => none
  | fuel + 1, cs =>
    match skipWs cs with
    | ',' :: rest =>
      (match parseValue fuel rest with
       | none => none
       | some (v, rest2) =>
         match parseElems fuel rest2 with
         | none => none
         | some (vs, rest3) => some (v :: vs, rest3))
    | ']' :: rest => some ([], rest)
    | _ => none

/-- Parse the remainder of a JSON object after the opening brace. -/
def parseObjTail : Nat → List Char → Option (Json × List Char)
  | 0, _ => none
  | fuel + 1, cs =>
    match skipWs cs with
    | c :: rest =>
      if c = rbrace then some (Json.obj [], rest)
      else
        match parseMember fuel (c :: rest) with
        | none => none
        | some (kv, rest2) =>
          match parseMembers fuel rest2 with
          | none => none
          | some (kvs, rest3) => some (Json.obj (kv :: kvs), rest3)
    | [] => none

/-- Parse one key-value member of a JSON object. -/
def parseMember : Nat → List Char → Option ((String × Json) × List Char)
  | 0, _ => none
  | fuel + 1, cs =>
    match skipWs cs with
    | '"' :: rest =>
      (match parseStringBody rest with
       | none => none
       | some (k, rest2) =>
         match skipWs rest2 with
         | ':' :: rest3 =>
           (match parseValue fuel rest3 with
            | none => none
            | some (v, rest4) => some ((String.mk k, v), rest4))
         | _ => none)
    | _ => none

/-- Parse the comma-separated continuation of a JSON object. -/
def parseMembers : Nat → List Char → Option (List (String × Json) × List Char)
  | 0, _ => none
  | fuel + 1, cs =>
    match skipWs cs with
    | ',' :: rest =>
      (match parseMember fuel rest with
       | none => none
       | some (kv, rest2) =>
         match parseMembers fuel rest2 with
         | none => none
         | some (kvs, rest3) => some (kv :: kvs, rest3))
    | c :: rest =>
      if c = rbrace then some ([], rest) else none
    | [] => none

end

/-- Model of JavaScript JSON.parse: parse one value and require only trailing
whitespace after it. The error message stands in for the engine-specific
SyntaxError message (no claim depends on its exact text). -/
def parseJson (s : String) : Except String Json :=
  match parseValue (10 * s.length + 16) s.data with
  | some (v, rest) =>
    if (skipWs rest).isEmpty then Except.ok v
    else Except.error "Unexpected non-whitespace character after JSON data"
  | none => Except.error "Unexpected token in JSON"

/-- Field lookup on a parsed JSON value, as JavaScript property access on the
object produced by JSON.parse: absent on non-objects, last duplicate wins. -/
def Json.getField : Json → String → Option Json
  | Json.obj fields, key => (fields.reverse.find? (fun f => f.1 == key)).map (fun f => f.2)
  | _, _ => none

/-- A JSON numeric literal denotes the JavaScript number 0 exactly when every
mantissa character is a zero digit (ignoring sign, decimal point and exponent). -/
def isZeroRaw (raw : String) : Bool :=
  (raw.data.takeWhile (fun c => !(c = 'e' || c = 'E'))).all
    (fun c => c = '0' || c = '-' || c = '.')

/-- Whether a JSON value is the null value. -/
def Json.isNull : Json → Bool
  | Json.null => true
  | _ => false

/-- JavaScript truthiness of an optional JSON value (none models undefined). -/
def jsTruthy : Option Json → Bool
  | none => false
  | some Json.null => false
  | some (Json.bool b) => b
  | some (Json.num raw) => !isZeroRaw raw
  | some (Json.str s) => s != ""
  | some (Json.arr _) => true
  | some (Json.obj _) => true

/-- JavaScript `a || b` on an optional string (undefined and "" are falsy). -/
def jsOrString (a : Option String) (dflt : String) : String :=
  match a with
  | none => dflt
  | some s => if s = "" then dflt else s

/-- JavaScript truthiness of an optional string (none models null/undefined). -/
def jsTruthyString : Option String → Bool
  | none => false
  | some s => s != ""

mutual

/-- JavaScript string coercion of a JSON value, as used by template literals. -/
def jsDisplay : Json → String
  | Json.null => "null"
  | Json.bool true => "true"
  | Json.bool false => "false"
  | Json.num raw => raw
  | Json.str s => s
  | Json.arr elems => jsDisplayList elems
  | Json.obj _ => "[object Object]"

/-- JavaScript Array.prototype.toString: elements joined by commas, null
elements rendered empty. -/
def jsDisplayList : List Json → String
  | [] => ""
  | [Json.null] => ""
  | [x] => jsDisplay x
  | Json.null :: xs => "," ++ jsDisplayList xs
  | x :: xs => jsDisplay x ++ "," ++ jsDisplayList xs

end

/-- Hexadecimal digit character for a value below 16. -/
def hexDigit (n : Nat) : Char :=
  if n < 10 then Char.ofNat (48 + n) else Char.ofNat (87 + n)

/-- JSON.stringify escaping of one string character. -/
def escJsonChar (c : Char) : List Char :=
  if c = '"' then ['\\', '"']
  else if c = '\\' then ['\\', '\\']
  else if c = '\n' then ['\\', 'n']
  else if c = '\r' then ['\\', 'r']
  else if c = '\t' then ['\\', 't']
  else if c.toNat = 8 then ['\\', 'b']
  else if c.toNat = 12 then ['\\', 'f']
  else if c.toNat < 32 then
    ['\\', 'u', '0', '0', hexDigit (c.toNat / 16), hexDigit (c.toNat % 16)]
  else [c]

/-- JSON.stringify rendering of a string, quotes included. -/
def quoteJson (s : String) : String :=
  "\"" ++ String.mk (s.data.map escJsonChar).flatten ++ "\""

mutual

/-- Model of JavaScript JSON.stringify (compact form, insertion order). -/
def Json.stringify : Json → String
  | Json.null => "null"
  | Json.bool true => "true"
  | Json.bool false => "false"
  | Json.num raw => raw
  | Json.str s => quoteJson s
  | Json.arr elems => "[" ++ stringifyElems elems ++ "]"
  | Json.obj fields => String.mk [lbrace] ++ stringifyFields fields ++ String.mk [rbrace]

/-- Comma-joined JSON.stringify of array elements. -/
def stringifyElems : List Json → String
  | [] => ""
  | [x] => Json.stringify x
  | x :: xs => Json.stringify x ++ "," ++ stringifyElems xs

/-- Comma-joined JSON.stringify of object members. -/
def stringifyFields : List (String × Json) → String
  | [] => ""
  | [(k, v)] => quoteJson k ++ ":" ++ Json.stringify v
  | (k, v) :: fs => quoteJson k ++ ":" ++ Json.stringify v ++ "," ++ stringifyFields fs

end

namespace ClientAI

/-- Normalization stage of AIService.generateDetailedPlan in the proxy-calling
variant: the result value returned by callLLMFunction is parsed as JSON when it
is a string, any parse failure becoming the error thrown by the source; a
non-string result is returned unchanged. -/
def generateDetailedPlan (result : Json) : Except String Json :=
  match result with
  | Json.str s =>
    (match parseJson s with
     | Except.ok v => Except.ok v
     | Except.error _ => Except.error "Invalid JSON response from AI model")
  | v => Except.ok v

/-- Normalization stage of AIService.generateFileStructure in the proxy-calling
variant; identical parse-or-throw logic applied to the structure task. -/
def generateFileStructure (result : Json) : Except String Json :=
  match result with
  | Json.str s =>
    (match parseJson s with
     | Except.ok v => Except.ok v
     | Except.error _ => Except.error "Invalid JSON response from AI model")
  | v => Except.ok v

/-- Normalization stage of AIService.generateCode in the proxy-calling variant:
a string result is returned unchanged, anything else is stringified. -/
def generateCode (result : Json) : String :=
  match result with
  | Json.str s => s
  | v => Json.stringify v

end ClientAI

namespace LlmFn

/-- The three environment variables read by the llm proxy function. -/
structure Env where
  VITE_GEMINI_API_KEY : Option String
  VITE_MISTRAL_API_KEY : Option String
  VITE_GROQ_API_KEY : Option String

/-- The parts of a Netlify event the llm handler reads. -/
structure LlmEvent where
  httpMethod : String
  body : Option String

/-- A chat message in a backend reply; content may be absent (null). -/
structure ChatMsg where
  content : Option String

/-- One choice of a chat-completions reply; message may be absent. -/
structure ChatChoice where
  message : Option ChatMsg

/-- Reply envelope shared by the mistral and groq chat endpoints. -/
structure ChatResponse where
  choices : List ChatChoice

/-- The three backend calls the handler can make, abstracted as functions of
the request the source builds: gemini receives the API key and the single
concatenated prompt string and yields the text() of the reply; mistral and
groq receive the key, the system prompt and the user prompt value and yield
the chat reply envelope. An error value models the awaited call throwing. -/
structure Backends where
  gemini : String → String → Except String String
  mistral : String → String → Json → Except String ChatResponse
  groq : String → String → Json → Except String ChatResponse

/-- The CORS header object declared at the top of the function. -/
def corsHeaders : List (String × String) :=
  [("Access-Control-Allow-Origin", "*"),
   ("Access-Control-Allow-Headers", "Content-Type, Authorization"),
   ("Access-Control-Allow-Methods", "POST, OPTIONS")]

/-- JavaScript falsiness of an environment variable (absent or empty). -/
def envMissing (v : Option String) : Bool :=
  match v with
  | none => true
  | some s => s == ""

/-- validateApiKeys: collect the names of the missing keys, in source order. -/
def validateApiKeys (env : Env) : List String :=
  (if envMissing env.VITE_GEMINI_API_KEY then ["VITE_GEMINI_API_KEY"] else []) ++
  (if envMissing env.VITE_MISTRAL_API_KEY then ["VITE_MISTRAL_API_KEY"] else []) ++
  (if envMissing env.VITE_GROQ_API_KEY then ["VITE_GROQ_API_KEY"] else [])

/-- JavaScript Array.prototype.join with separator comma-space. -/
def joinComma : List String → String
  | [] => ""
  | [x] => x
  | x :: xs => x ++ ", " ++ joinComma xs

/-- System instruction chosen for type plan. -/
def planSystemPrompt : String :=
  "You are an expert software developer. Create a detailed, step-by-step development plan. Format as JSON array with \x27description\x27 and \x27prompt\x27 fields."

/-- System instruction chosen for type structure. -/
def structureSystemPrompt : String :=
  "Generate a file structure as JSON array with \x27name\x27, \x27type\x27, and optional \x27children\x27 fields."

/-- System instruction chosen for any other type value. -/
def codeSystemPrompt : String :=
  "Generate clean, well-documented code only, no explanations."

/-- The ternary chain selecting the system prompt from the type field. -/
def systemPromptFor (typev : Option Json) : String :=
  match typev with
  | some (Json.str "plan") => planSystemPrompt
  | some (Json.str "structure") => structureSystemPrompt
  | _ => codeSystemPrompt

/-- Unguarded extraction response.choices[0].message.content as the handler
performs it; a missing step of the path is a thrown TypeError. -/
def extractContent (r : ChatResponse) : Except String (Option String) :=
  match r.choices with
  | [] => Except.error "Cannot read properties of undefined (reading message)"
  | c :: _ =>
    match c.message with
    | none => Except.error "Cannot read properties of undefined (reading content)"
    | some m => Except.ok m.content

/-- The switch (model) block: dispatch to one backend, count the calls made,
and extract the raw text; an unknown model throws without any call. -/
def runModel (bk : Backends) (env : Env) (systemPrompt : String) (prompt : Json)
    (model : Json) : Except String (Option String) × Nat :=
  match model with
  | Json.str "gemini" =>
    (match bk.gemini (jsOrString env.VITE_GEMINI_API_KEY "")
        (systemPrompt ++ "\n\n" ++ jsDisplay prompt) with
     | Except.error e => (Except.error e, 1)
     | Except.ok t => (Except.ok (some t), 1))
  | Json.str "mistral" =>
    (match bk.mistral (jsOrString env.VITE_MISTRAL_API_KEY "") systemPrompt prompt with
     | Except.error e => (Except.error e, 1)
     | Except.ok r => (extractContent r, 1))
  | Json.str "groq" =>
    (match bk.groq (jsOrString env.VITE_GROQ_API_KEY "") systemPrompt prompt with
     | Except.error e => (Except.error e, 1)
     | Except.ok r => (extractContent r, 1))
  | m => (Except.error ("Invalid model specified: " ++ jsDisplay m), 0)

/-- The handler's HTTP response: status, headers and the JSON body (the source
serializes the body with JSON.stringify; the body is kept structured here). -/
structure Response where
  statusCode : Nat
  headers : List (String × String)
  body : Option Json
deriving Repr

/-- Headers of the success and catch branches: CORS plus content type. -/
def jsonContentType : List (String × String) :=
  corsHeaders ++ [("Content-Type", "application/json")]

/-- The catch-all 500 response wrapping the thrown message. -/
def error500 (msg : String) : Response :=
  { statusCode := 500
    headers := jsonContentType
    body := some (Json.obj [("error",
      Json.str ("AI model error: " ++ msg ++ ". Please check your API keys and try again."))]) }

/-- The llm proxy handler, with the number of backend calls it performed.
Thrown errors (JSON.parse failure, destructuring null, unknown model, a
rejected backend call, an empty extraction) are routed to the catch branch. -/
def handler (event : LlmEvent) (env : Env) (bk : Backends) : Response × Nat :=
  if event.httpMethod = "OPTIONS" then
    ({ statusCode := 200, headers := corsHeaders, body := none }, 0)
  else if event.httpMethod ≠ "POST" then
    ({ statusCode := 405, headers := corsHeaders,
       body := some (Json.obj [("error", Json.str "Method not allowed")]) }, 0)
  else
    match parseJson (jsOrString event.body "\x7b\x7d") with
    | Except.error e => (error500 e, 0)
    | Except.ok parsed =>
      if parsed.isNull then (error500 "Cannot destructure properties of null", 0)
      else
      let prompt := parsed.getField "prompt"
      let model := parsed.getField "model"
      let typev := parsed.getField "type"
      if !jsTruthy prompt || !jsTruthy model || !jsTruthy typev then
        ({ statusCode := 400, headers := corsHeaders,
           body := some (Json.obj [("error",
             Json.str "Missing required parameters: prompt, model, or type")]) }, 0)
      else
        let missingKeys := validateApiKeys env
        if missingKeys.length > 0 then
          ({ statusCode := 500, headers := corsHeaders,
             body := some (Json.obj [("error",
               Json.str ("Missing API keys: " ++ joinComma missingKeys ++
                 ". Please check your environment variables."))]) }, 0)
        else
          match runModel bk env (systemPromptFor typev) (prompt.getD Json.null) (model.getD Json.null) with
          | (Except.error e, n) => (error500 e, n)
          | (Except.ok r, n) =>
            if !jsTruthyString r then
              (error500 "No response received from AI model", n)
            else
              ({ statusCode := 200, headers := jsonContentType,
                 body := some (Json.obj [("result", Json.str (r.getD ""))]) }, n)

end LlmFn

namespace DirectAI

/-- Which SDK clients were constructed during initialization in the direct
(SDK-calling) AIService variant; a field is false when the client reference is
still null because its key was absent. -/
structure Clients where
  gemini : Bool
  mistral : Bool
  groq : Bool

/-- The backend calls the initialized clients can make, abstracted as
functions of the request the source builds. The reply envelope of the chat
backends is the same ChatResponse shape the proxy function consumes. -/
structure Backends where
  gemini : String → Except String String
  mistral : String → String → Except String LlmFn.ChatResponse
  groq : String → String → Except String LlmFn.ChatResponse

/-- The plan system prompt of the direct variant, verbatim. -/
def planSystemPrompt : String :=
  "You are an expert software developer. Create a detailed, step-by-step development plan for the following request. For each step, provide:\n1. A clear description of what needs to be done\n2. A specific prompt that can be given to an AI to implement that step\n\nFormat your response as a JSON array of objects, each with \x27description\x27 and \x27prompt\x27 fields."

/-- The guard chatResponse.choices and choices[0] and choices[0].message: an
empty choices array fails it (choices[0] is undefined), as does an absent
message. -/
def chatGuard (r : LlmFn.ChatResponse) : Bool :=
  match r.choices with
  | [] => false
  | c :: _ => c.message.isSome

/-- The content at choices[0].message.content, when the whole path exists. -/
def contentHead (r : LlmFn.ChatResponse) : Option String :=
  match r.choices with
  | [] => none
  | c :: _ =>
    match c.message with
    | none => none
    | some m => m.content

/-- JavaScript string coercion JSON.parse applies to its argument: an
undefined content is coerced to the text undefined (which then fails to
parse). -/
def jsStringCoerce : Option String → String
  | none => "undefined"
  | some s => s

/-- The mistral arm of generateDetailedPlan after the awaited chat call: the
guarded extraction throws the invalid-structure error when the path is
missing, otherwise JSON.parse of the content. -/
def mistralPlanExtract (r : LlmFn.ChatResponse) : Except String Json :=
  if chatGuard r then parseJson (jsStringCoerce (contentHead r))
  else Except.error "Invalid Mistral API response structure for plan generation."

/-- The groq arm of generateDetailedPlan after the awaited chat call: as the
mistral arm, except that an absent or empty content is replaced by the
default text of an empty object before parsing. -/
def groqPlanExtract (r : LlmFn.ChatResponse) : Except String Json :=
  if chatGuard r then parseJson (jsOrString (contentHead r) "\x7b\x7d")
  else Except.error "Invalid Groq API response structure for plan generation."

/-- generateDetailedPlan of the direct variant, after initialization: the
provider switch with its not-initialized guards, together with the number of
backend calls performed. -/
def generateDetailedPlan (cl : Clients) (bk : Backends) (prompt : String)
    (provider : String) : Except String Json × Nat :=
  match provider with
  | "gemini" =>
    if !cl.gemini then (Except.error "Gemini client not initialized. Check API Key.", 0)
    else
      match bk.gemini (planSystemPrompt ++ "\n\nUser request: " ++ prompt) with
      | Except.error e => (Except.error e, 1)
      | Except.ok response => (parseJson response, 1)
  | "mistral" =>
    if !cl.mistral then (Except.error "Mistral client not initialized. Check API Key.", 0)
    else
      match bk.mistral planSystemPrompt prompt with
      | Except.error e => (Except.error e, 1)
      | Except.ok r => (mistralPlanExtract r, 1)
  | "groq" =>
    if !cl.groq then (Except.error "Groq client not initialized. Check API Key.", 0)
    else
      match bk.groq planSystemPrompt prompt with
      | Except.error e => (Except.error e, 1)
      | Except.ok r => (groqPlanExtract r, 1)
  | _ => (Except.error "Invalid AI provider", 0)

/-- Process-wide initialization state of the direct variant: the completion
flag, the stored in-flight promise (identified by the serial number of the
fetch it runs), and how many fetches have been started. -/
structure InitState where
  keysInitialized : Bool
  initializationPromise : Option Nat
  fetchesStarted : Nat

/-- The state before any call. -/
def initialState : InitState :=
  { keysInitialized := false, initializationPromise := none, fetchesStarted := 0 }

/-- One caller entering ensureInitialized/initializeClients. JavaScript runs
the synchronous prefix of the async function (the completed check, the
promise check, and the creation and storing of the promise) to completion
before any other caller proceeds, so that prefix is one atomic step. The
returned value is the identifier of the fetch this caller awaits (none when
the completed flag short-circuits). -/
def initializeClients (s : InitState) : InitState × Option Nat :=
  if s.keysInitialized then (s, none)
  else
    match s.initializationPromise with
    | some p => (s, some p)
    | none =>
      ({ s with initializationPromise := some s.fetchesStarted,
                fetchesStarted := s.fetchesStarted + 1 }, some s.fetchesStarted)

/-- A burst of k callers all entering before the fetch completes. -/
def runCalls : Nat → InitState → InitState × List (Option Nat)
  | 0, s => (s, [])
  | k + 1, s =>
    let p := initializeClients s
    let q := runCalls k p.1
    (q.1, p.2 :: q.2)

end DirectAI

namespace LegacyAI

/-- Process-wide initialization state of the legacy variant, which only has
the completion flag (no stored in-flight promise). -/
structure InitState where
  keysInitialized : Bool
  fetchesStarted : Nat

/-- The state before any call. -/
def initialState : InitState :=
  { keysInitialized := false, fetchesStarted := 0 }

/-- One caller entering the legacy initializeClients before any fetch has
completed: the completed flag is still false (it is only set after the
awaited fetch resolves), so every such caller starts its own fetch. -/
def initializeClients (s : InitState) : InitState × Option Nat :=
  if s.keysInitialized then (s, none)
  else ({ s with fetchesStarted := s.fetchesStarted + 1 }, some s.fetchesStarted)

/-- A burst of k callers all entering before any fetch completes. -/
def runCalls : Nat → InitState → InitState × List (Option Nat)
  | 0, s => (s, [])
  | k + 1, s =>
    let p := initializeClients s
    let q := runCalls k p.1
    (q.1, p.2 :: q.2)

end LegacyAI

/-- Helper for C5: once one caller has created and stored the in-flight
promise, the state is a fixpoint of further concurrent calls, and every later
caller awaits fetch 0. -/
theorem runCalls_steady (k : Nat) :
    DirectAI.runCalls k
      { keysInitialized := false, initializationPromise := some 0, fetchesStarted := 1 } =
    ({ keysInitialized := false, initializationPromise := some 0, fetchesStarted := 1 },
      List.replicate k (some 0)) := by
  induction k with
  | zero => rfl
  | succ n ih =>
    simp [DirectAI.runCalls, DirectAI.initializeClients, ih, List.replicate_succ]

/-- C2: for every rawText that is not valid JSON, normalization under
TaskType=Plan (and likewise Structure) fails with the NormalizationError of
the source, while the same rawText under TaskType=Code succeeds and returns
the text unchanged. generateCode returns String rather than Except, so by
type it is the only task whose normalization stage cannot fail. -/
theorem plan_fails_code_unchanged_on_invalid_json (s e : String)
    (h : parseJson s = Except.error e) :
    ClientAI.generateDetailedPlan (Json.str s) =
      Except.error "Invalid JSON response from AI model" ∧
    ClientAI.generateFileStructure (Json.str s) =
      Except.error "Invalid JSON response from AI model" ∧
    ClientAI.generateCode (Json.str s) = s := by
  refine ⟨?_, ?_, rfl⟩ <;>
    simp [ClientAI.generateDetailedPlan, ClientAI.generateFileStructure, h]

/-- C2 witness: plain prose is not valid JSON; at that input plan and
structure normalization fail and code normalization is the identity. -/
theorem plan_fails_code_unchanged_on_invalid_json_witness :
    parseJson "This is a plan: first do X." = Except.error "Unexpected token in JSON" ∧
    (ClientAI.generateDetailedPlan (Json.str "This is a plan: first do X.") =
       Except.error "Invalid JSON response from AI model" ∧
     ClientAI.generateFileStructure (Json.str "This is a plan: first do X.") =
       Except.error "Invalid JSON response from AI model" ∧
     ClientAI.generateCode (Json.str "This is a plan: first do X.") =
       "This is a plan: first do X.") :=
  ⟨rfl, plan_fails_code_unchanged_on_invalid_json _ _ rfl⟩

/-- C3 counterexample: the rawText consisting of one empty object in an array
is valid JSON whose single element lacks both the description and the prompt
field, yet plan normalization succeeds and returns it; it does not fail. -/
theorem plan_missing_fields_not_rejected :
    ClientAI.generateDetailedPlan (Json.str "[\x7b\x7d]") =
      Except.ok (Json.arr [Json.obj []]) ∧
    (Json.obj []).getField "description" = none ∧
    (Json.obj []).getField "prompt" = none ∧
    ((∃ msg, ClientAI.generateDetailedPlan (Json.str "[\x7b\x7d]") = Except.error msg) →
      False) := by
  refine ⟨rfl, rfl, rfl, ?_⟩
  rintro ⟨msg, hmsg⟩
  rw [show ClientAI.generateDetailedPlan (Json.str "[\x7b\x7d]") =
      Except.ok (Json.arr [Json.obj []]) from rfl] at hmsg
  exact Except.noConfusion hmsg

/-- C3 amended: plan normalization only requires rawText to decode as JSON;
whatever decodes is returned unchanged, with no check that elements carry
description or prompt fields (absent fields are neither rejected nor
defaulted). -/
theorem plan_any_parsed_json_accepted (s : String) (v : Json)
    (h : parseJson s = Except.ok v) :
    ClientAI.generateDetailedPlan (Json.str s) = Except.ok v := by
  simp [ClientAI.generateDetailedPlan, h]

/-- C3 amended witness: the array with one field-less element decodes and is
accepted unchanged. -/
theorem plan_any_parsed_json_accepted_witness :
    parseJson "[\x7b\x7d]" = Except.ok (Json.arr [Json.obj []]) ∧
    ClientAI.generateDetailedPlan (Json.str "[\x7b\x7d]") =
      Except.ok (Json.arr [Json.obj []]) :=
  ⟨rfl, plan_any_parsed_json_accepted _ _ rfl⟩

/-- C4: selecting a provider whose client was never constructed (its secret
was absent) fails before any backend call: the result is an error and the
backend-call count is zero. -/
theorem dispatch_absent_credential_no_network (cl : DirectAI.Clients)
    (bk : DirectAI.Backends) (prompt provider : String)
    (h : (provider = "gemini" ∧ cl.gemini = false) ∨
         (provider = "mistral" ∧ cl.mistral = false) ∨
         (provider = "groq" ∧ cl.groq = false)) :
    (DirectAI.generateDetailedPlan cl bk prompt provider).2 = 0 ∧
    ∃ e, (DirectAI.generateDetailedPlan cl bk prompt provider).1 = Except.error e := by
  rcases h with ⟨rfl, hc⟩ | ⟨rfl, hc⟩ | ⟨rfl, hc⟩ <;>
    simp [DirectAI.generateDetailedPlan, hc]

/-- C4 witness: no client constructed, gemini selected: an error and zero
backend calls. -/
theorem dispatch_absent_credential_no_network_witness :
    ("gemini" = "gemini" ∧ ({ gemini := false, mistral := false, groq := false } :
        DirectAI.Clients).gemini = false) ∧
    ((DirectAI.generateDetailedPlan { gemini := false, mistral := false, groq := false }
        { gemini := fun _ => Except.error "unused",
          mistral := fun _ _ => Except.error "unused",
          groq := fun _ _ => Except.error "unused" } "p" "gemini").2 = 0 ∧
      ∃ e, (DirectAI.generateDetailedPlan { gemini := false, mistral := false, groq := false }
        { gemini := fun _ => Except.error "unused",
          mistral := fun _ _ => Except.error "unused",
          groq := fun _ _ => Except.error "unused" } "p" "gemini").1 = Except.error e) :=
  ⟨⟨rfl, rfl⟩, dispatch_absent_credential_no_network _ _ _ _ (Or.inl ⟨rfl, rfl⟩)⟩

/-- C5 amended: in the guarded variant (the one holding an
initializationPromise), any burst of k at least 1 concurrent callers entering
before the fetch completes starts exactly one fetch, and every caller awaits
that same fetch (fetch 0), hence observes the same outcome. -/
theorem initializeClients_single_flight (k : Nat) (hk : 1 ≤ k) :
    (DirectAI.runCalls k DirectAI.initialState).1.fetchesStarted = 1 ∧
    (DirectAI.runCalls k DirectAI.initialState).2 = List.replicate k (some 0) := by
  obtain ⟨n, rfl⟩ : ∃ n, k = n + 1 := ⟨k - 1, (Nat.succ_pred_eq_of_pos hk).symm⟩
  have h := runCalls_steady n
  constructor
  · simp [DirectAI.runCalls, DirectAI.initializeClients, DirectAI.initialState, h]
  · simp [DirectAI.runCalls, DirectAI.initializeClients, DirectAI.initialState, h,
      List.replicate_succ]

/-- C5 witness: five simultaneous first callers of the guarded variant start
exactly one fetch and all await fetch 0. -/
theorem initializeClients_single_flight_witness :
    1 ≤ 5 ∧
    ((DirectAI.runCalls 5 DirectAI.initialState).1.fetchesStarted = 1 ∧
      (DirectAI.runCalls 5 DirectAI.initialState).2 = List.replicate 5 (some 0)) :=
  ⟨by decide, initializeClients_single_flight 5 (by decide)⟩

/-- C5 counterexample: in the legacy variant, which guards only with the
completion flag, five concurrent first callers start five fetches, not one. -/
theorem legacy_concurrent_duplicate_fetches :
    (LegacyAI.runCalls 5 LegacyAI.initialState).1.fetchesStarted = 5 ∧
    ((LegacyAI.runCalls 5 LegacyAI.initialState).1.fetchesStarted = 1 → False) :=
  ⟨rfl, by decide⟩

/-- C6 counterexample: a directory node whose children field is omitted comes
back from structure normalization with the field still absent: it is not
defaulted to an empty sequence. -/
theorem structure_omitted_children_stays_absent :
    ClientAI.generateFileStructure (Json.str "[\x7b\"name\":\"a\",\"type\":\"directory\"\x7d]") =
      Except.ok (Json.arr [Json.obj [("name", Json.str "a"), ("type", Json.str "directory")]]) ∧
    (Json.obj [("name", Json.str "a"), ("type", Json.str "directory")]).getField "children" =
      none ∧
    ((Json.obj [("name", Json.str "a"), ("type", Json.str "directory")]).getField "children" =
        some (Json.arr []) → False) := by
  refine ⟨rfl, rfl, ?_⟩
  intro h
  rw [show (Json.obj [("name", Json.str "a"), ("type", Json.str "directory")]).getField
      "children" = none from rfl] at h
  exact Option.noConfusion h

/-- C6 amended: structure normalization returns the decoded JSON unchanged:
the concrete rawText of the claim yields exactly one directory node src with
one file child main.ts; an omitted children field stays absent (no default);
and a children field on a file node is preserved, not ignored. -/
theorem structure_normalization_passthrough :
    ClientAI.generateFileStructure (Json.str
        "[\x7b\"name\":\"src\",\"type\":\"directory\",\"children\":[\x7b\"name\":\"main.ts\",\"type\":\"file\"\x7d]\x7d]") =
      Except.ok (Json.arr [Json.obj
        [("name", Json.str "src"), ("type", Json.str "directory"),
         ("children", Json.arr [Json.obj
           [("name", Json.str "main.ts"), ("type", Json.str "file")]])]]) ∧
    ClientAI.generateFileStructure (Json.str "[\x7b\"name\":\"a\",\"type\":\"directory\"\x7d]") =
      Except.ok (Json.arr [Json.obj [("name", Json.str "a"), ("type", Json.str "directory")]]) ∧
    ClientAI.generateFileStructure (Json.str
        "[\x7b\"name\":\"b\",\"type\":\"file\",\"children\":[]\x7d]") =
      Except.ok (Json.arr [Json.obj
        [("name", Json.str "b"), ("type", Json.str "file"), ("children", Json.arr [])]]) :=
  ⟨rfl, rfl, rfl⟩

/-- C7: plan normalization round-trips the well-formed rawText of the claim
exactly: one step with description Init repo and prompt scaffold, order and
values preserved character for character. -/
theorem plan_round_trip_concrete :
    ClientAI.generateDetailedPlan (Json.str
        "[\x7b\"description\":\"Init repo\",\"prompt\":\"scaffold\"\x7d]") =
      Except.ok (Json.arr [Json.obj
        [("description", Json.str "Init repo"), ("prompt", Json.str "scaffold")]]) := rfl

/-- Helper for C9: every element of a list of strings occurs as a substring
of its comma-space join. -/
theorem mem_joinComma_infix : (l : List String) → (k : String) → k ∈ l →
    k.data <:+: (LlmFn.joinComma l).data
  | [], _, h => absurd h (List.not_mem_nil _)
  | [x], k, h => by
    rw [List.mem_singleton] at h
    subst h
    exact List.infix_refl _
  | x :: y :: ys, k, h => by
    rcases List.mem_cons.mp h with rfl | h2
    · show k.data <:+: (k ++ ", " ++ LlmFn.joinComma (y :: ys)).data
      rw [String.data_append, String.data_append, List.append_assoc]
      exact ⟨[], (", ").data ++ (LlmFn.joinComma (y :: ys)).data, rfl⟩
    · have ih := mem_joinComma_infix (y :: ys) k h2
      show k.data <:+: (x ++ ", " ++ LlmFn.joinComma (y :: ys)).data
      rw [String.data_append]
      exact ih.trans ⟨(x ++ ", ").data, [], by simp⟩

/-- C1: the llm proxy handler status contract. An OPTIONS request yields 200
with exactly the CORS headers and no body, whatever the body, environment or
backends; any other non-POST method yields 405; a POST whose parsed body
lacks a truthy prompt, model or type field yields 400; a POST with missing
credentials yields 500 with an error body; a failing backend dispatch yields
500 with an error body; and a successful dispatch yields 200 with a result
body. -/
theorem handler_status_contract (event : LlmFn.LlmEvent) (env : LlmFn.Env)
    (bk : LlmFn.Backends) (parsed : Json) :
    (event.httpMethod = "OPTIONS" →
      LlmFn.handler event env bk =
        ({ statusCode := 200, headers := LlmFn.corsHeaders, body := none }, 0)) ∧
    (event.httpMethod ≠ "OPTIONS" → event.httpMethod ≠ "POST" →
      (LlmFn.handler event env bk).1.statusCode = 405 ∧
      (LlmFn.handler event env bk).2 = 0) ∧
    (event.httpMethod = "POST" →
      parseJson (jsOrString event.body "\x7b\x7d") = Except.ok parsed →
      parsed.isNull = false →
      (!jsTruthy (parsed.getField "prompt") || !jsTruthy (parsed.getField "model") ||
        !jsTruthy (parsed.getField "type")) = true →
      (LlmFn.handler event env bk).1.statusCode = 400 ∧
      (LlmFn.handler event env bk).2 = 0) ∧
    (event.httpMethod = "POST" →
      parseJson (jsOrString event.body "\x7b\x7d") = Except.ok parsed →
      parsed.isNull = false →
      jsTruthy (parsed.getField "prompt") = true →
      jsTruthy (parsed.getField "model") = true →
      jsTruthy (parsed.getField "type") = true →
      LlmFn.validateApiKeys env ≠ [] →
      (LlmFn.handler event env bk).1.statusCode = 500 ∧
      (LlmFn.handler event env bk).1.body = some (Json.obj [("error", Json.str
        ("Missing API keys: " ++ LlmFn.joinComma (LlmFn.validateApiKeys env) ++
          ". Please check your environment variables."))])) ∧
    (∀ e n, event.httpMethod = "POST" →
      parseJson (jsOrString event.body "\x7b\x7d") = Except.ok parsed →
      parsed.isNull = false →
      jsTruthy (parsed.getField "prompt") = true →
      jsTruthy (parsed.getField "model") = true →
      jsTruthy (parsed.getField "type") = true →
      LlmFn.validateApiKeys env = [] →
      LlmFn.runModel bk env (LlmFn.systemPromptFor (parsed.getField "type"))
          ((parsed.getField "prompt").getD Json.null)
          ((parsed.getField "model").getD Json.null) = (Except.error e, n) →
      LlmFn.handler event env bk = (LlmFn.error500 e, n)) ∧
    (∀ r n, event.httpMethod = "POST" →
      parseJson (jsOrString event.body "\x7b\x7d") = Except.ok parsed →
      parsed.isNull = false →
      jsTruthy (parsed.getField "prompt") = true →
      jsTruthy (parsed.getField "model") = true →
      jsTruthy (parsed.getField "type") = true →
      LlmFn.validateApiKeys env = [] →
      LlmFn.runModel bk env (LlmFn.systemPromptFor (parsed.getField "type"))
          ((parsed.getField "prompt").getD Json.null)
          ((parsed.getField "model").getD Json.null) = (Except.ok (some r), n) →
      r ≠ "" →
      LlmFn.handler event env bk =
        ({ statusCode := 200, headers := LlmFn.jsonContentType,
           body := some (Json.obj [("result", Json.str r)]) }, n)) := by
  refine ⟨?_, ?_, ?_, ?_, ?_, ?_⟩
  · intro h
    simp [LlmFn.handler, h]
  · intro h1 h2
    simp [LlmFn.handler, h1, h2]
  · intro hm hp hnull hg
    simp [LlmFn.handler, hm, hp, hnull, hg]
  · intro hm hp hnull h1 h2 h3 hmiss
    simp [LlmFn.handler, hm, hp, hnull, h1, h2, h3, List.length_pos, hmiss]
  · intro e n hm hp hnull h1 h2 h3 hkeys hr
    simp [LlmFn.handler, hm, hp, hnull, h1, h2, h3, hkeys, hr]
  · intro r n hm hp hnull h1 h2 h3 hkeys hr hne
    simp [LlmFn.handler, hm, hp, hnull, h1, h2, h3, hkeys, hr, LlmFn.jsonContentType,
      jsTruthyString, hne]

/-- C1 witness: each branch of the status contract discharged at a concrete
event, environment and backend set. -/
theorem handler_status_contract_witness :
    (LlmFn.handler { httpMethod := "OPTIONS", body := none }
        { VITE_GEMINI_API_KEY := none, VITE_MISTRAL_API_KEY := none,
          VITE_GROQ_API_KEY := none }
        { gemini := fun _ _ => Except.error "boom",
          mistral := fun _ _ _ => Except.error "boom",
          groq := fun _ _ _ => Except.error "boom" } =
      ({ statusCode := 200, headers := LlmFn.corsHeaders, body := none }, 0)) ∧
    ((LlmFn.handler { httpMethod := "GET", body := none }
        { VITE_GEMINI_API_KEY := none, VITE_MISTRAL_API_KEY := none,
          VITE_GROQ_API_KEY := none }
        { gemini := fun _ _ => Except.error "boom",
          mistral := fun _ _ _ => Except.error "boom",
          groq := fun _ _ _ => Except.error "boom" }).1.statusCode = 405) ∧
    ((LlmFn.handler { httpMethod := "POST", body := some "\x7b\x7d" }
        { VITE_GEMINI_API_KEY := none, VITE_MISTRAL_API_KEY := none,
          VITE_GROQ_API_KEY := none }
        { gemini := fun _ _ => Except.error "boom",
          mistral := fun _ _ _ => Except.error "boom",
          groq := fun _ _ _ => Except.error "boom" }).1.statusCode = 400) ∧
    ((LlmFn.handler { httpMethod := "POST", body := some "\x7b\"prompt\":\"p\",\"model\":\"gemini\",\"type\":\"code\"\x7d" }
        { VITE_GEMINI_API_KEY := some "k", VITE_MISTRAL_API_KEY := none,
          VITE_GROQ_API_KEY := none }
        { gemini := fun _ _ => Except.error "boom",
          mistral := fun _ _ _ => Except.error "boom",
          groq := fun _ _ _ => Except.error "boom" }).1.statusCode = 500) ∧
    (LlmFn.handler { httpMethod := "POST", body := some "\x7b\"prompt\":\"p\",\"model\":\"gemini\",\"type\":\"code\"\x7d" }
        { VITE_GEMINI_API_KEY := some "k", VITE_MISTRAL_API_KEY := some "k",
          VITE_GROQ_API_KEY := some "k" }
        { gemini := fun _ _ => Except.error "boom",
          mistral := fun _ _ _ => Except.error "boom",
          groq := fun _ _ _ => Except.error "boom" } = (LlmFn.error500 "boom", 1)) ∧
    (LlmFn.handler { httpMethod := "POST", body := some "\x7b\"prompt\":\"p\",\"model\":\"gemini\",\"type\":\"code\"\x7d" }
        { VITE_GEMINI_API_KEY := some "k", VITE_MISTRAL_API_KEY := some "k",
          VITE_GROQ_API_KEY := some "k" }
        { gemini := fun _ _ => Except.ok "hello",
          mistral := fun _ _ _ => Except.error "boom",
          groq := fun _ _ _ => Except.error "boom" } =
      ({ statusCode := 200, headers := LlmFn.jsonContentType,
         body := some (Json.obj [("result", Json.str "hello")]) }, 1)) := by
  refine ⟨?_, ?_, ?_, ?_, ?_, ?_⟩
  · exact (handler_status_contract
      { httpMethod := "OPTIONS", body := none }
      { VITE_GEMINI_API_KEY := none, VITE_MISTRAL_API_KEY := none, VITE_GROQ_API_KEY := none }
      { gemini := fun _ _ => Except.error "boom", mistral := fun _ _ _ => Except.error "boom",
        groq := fun _ _ _ => Except.error "boom" } Json.null).1 rfl
  · exact ((handler_status_contract
      { httpMethod := "GET", body := none }
      { VITE_GEMINI_API_KEY := none, VITE_MISTRAL_API_KEY := none, VITE_GROQ_API_KEY := none }
      { gemini := fun _ _ => Except.error "boom", mistral := fun _ _ _ => Except.error "boom",
        groq := fun _ _ _ => Except.error "boom" } Json.null).2.1
      (by decide) (by decide)).1
  · exact ((handler_status_contract
      { httpMethod := "POST", body := some "\x7b\x7d" }
      { VITE_GEMINI_API_KEY := none, VITE_MISTRAL_API_KEY := none, VITE_GROQ_API_KEY := none }
      { gemini := fun _ _ => Except.error "boom", mistral := fun _ _ _ => Except.error "boom",
        groq := fun _ _ _ => Except.error "boom" } (Json.obj [])).2.2.1
      rfl rfl rfl rfl).1
  · exact ((handler_status_contract
      { httpMethod := "POST",
        body := some "\x7b\"prompt\":\"p\",\"model\":\"gemini\",\"type\":\"code\"\x7d" }
      { VITE_GEMINI_API_KEY := some "k", VITE_MISTRAL_API_KEY := none, VITE_GROQ_API_KEY := none }
      { gemini := fun _ _ => Except.error "boom", mistral := fun _ _ _ => Except.error "boom",
        groq := fun _ _ _ => Except.error "boom" }
      (Json.obj [("prompt", Json.str "p"), ("model", Json.str "gemini"),
        ("type", Json.str "code")])).2.2.2.1
      rfl rfl rfl rfl rfl rfl (by decide)).1
  · exact (handler_status_contract
      { httpMethod := "POST",
        body := some "\x7b\"prompt\":\"p\",\"model\":\"gemini\",\"type\":\"code\"\x7d" }
      { VITE_GEMINI_API_KEY := some "k", VITE_MISTRAL_API_KEY := some "k",
        VITE_GROQ_API_KEY := some "k" }
      { gemini := fun _ _ => Except.error "boom", mistral := fun _ _ _ => Except.error "boom",
        groq := fun _ _ _ => Except.error "boom" }
      (Json.obj [("prompt", Json.str "p"), ("model", Json.str "gemini"),
        ("type", Json.str "code")])).2.2.2.2.1
      "boom" 1 rfl rfl rfl rfl rfl rfl rfl rfl
  · exact (handler_status_contract
      { httpMethod := "POST",
        body := some "\x7b\"prompt\":\"p\",\"model\":\"gemini\",\"type\":\"code\"\x7d" }
      { VITE_GEMINI_API_KEY := some "k", VITE_MISTRAL_API_KEY := some "k",
        VITE_GROQ_API_KEY := some "k" }
      { gemini := fun _ _ => Except.ok "hello", mistral := fun _ _ _ => Except.error "boom",
        groq := fun _ _ _ => Except.error "boom" }
      (Json.obj [("prompt", Json.str "p"), ("model", Json.str "gemini"),
        ("type", Json.str "code")])).2.2.2.2.2
      "hello" 1 rfl rfl rfl rfl rfl rfl rfl rfl (by decide)

/-- C9: the llm proxy requires all three provider credentials at once: a
valid POST with any environment key missing yields 500 before any backend
call (zero calls), with an error message that names every missing key - even
when the key of the provider the request selects is present. -/
theorem handler_requires_all_keys (event : LlmFn.LlmEvent) (env : LlmFn.Env)
    (bk : LlmFn.Backends) (parsed : Json)
    (hm : event.httpMethod = "POST")
    (hp : parseJson (jsOrString event.body "\x7b\x7d") = Except.ok parsed)
    (hnull : parsed.isNull = false)
    (h1 : jsTruthy (parsed.getField "prompt") = true)
    (h2 : jsTruthy (parsed.getField "model") = true)
    (h3 : jsTruthy (parsed.getField "type") = true)
    (hmiss : LlmFn.validateApiKeys env ≠ []) :
    (LlmFn.handler event env bk).1.statusCode = 500 ∧
    (LlmFn.handler event env bk).2 = 0 ∧
    (LlmFn.handler event env bk).1.body = some (Json.obj [("error", Json.str
      ("Missing API keys: " ++ LlmFn.joinComma (LlmFn.validateApiKeys env) ++
        ". Please check your environment variables."))]) ∧
    ∀ k ∈ LlmFn.validateApiKeys env, k.data <:+:
      ("Missing API keys: " ++ LlmFn.joinComma (LlmFn.validateApiKeys env) ++
        ". Please check your environment variables.").data := by
  refine ⟨?_, ?_, ?_, ?_⟩
  · simp [LlmFn.handler, hm, hp, hnull, h1, h2, h3, List.length_pos, hmiss]
  · simp [LlmFn.handler, hm, hp, hnull, h1, h2, h3, List.length_pos, hmiss]
  · simp [LlmFn.handler, hm, hp, hnull, h1, h2, h3, List.length_pos, hmiss]
  · intro k hk
    have hjoin : k.data <:+: (LlmFn.joinComma (LlmFn.validateApiKeys env)).data :=
      mem_joinComma_infix _ _ hk
    refine hjoin.trans ?_
    rw [String.data_append, String.data_append]
    exact ⟨("Missing API keys: ").data, (". Please check your environment variables.").data,
      by rw [List.append_assoc]⟩

/-- C9 witness: gemini requested with the gemini key present but the other
two keys absent: still 500, zero backend calls, and both missing keys named. -/
theorem handler_requires_all_keys_witness :
    ((LlmFn.handler { httpMethod := "POST", body := some "\x7b\"prompt\":\"p\",\"model\":\"gemini\",\"type\":\"code\"\x7d" }
        { VITE_GEMINI_API_KEY := some "k", VITE_MISTRAL_API_KEY := none,
          VITE_GROQ_API_KEY := none }
        { gemini := fun _ _ => Except.ok "hello",
          mistral := fun _ _ _ => Except.error "boom",
          groq := fun _ _ _ => Except.error "boom" }).1.statusCode = 500 ∧
      (LlmFn.handler { httpMethod := "POST", body := some "\x7b\"prompt\":\"p\",\"model\":\"gemini\",\"type\":\"code\"\x7d" }
        { VITE_GEMINI_API_KEY := some "k", VITE_MISTRAL_API_KEY := none,
          VITE_GROQ_API_KEY := none }
        { gemini := fun _ _ => Except.ok "hello",
          mistral := fun _ _ _ => Except.error "boom",
          groq := fun _ _ _ => Except.error "boom" }).2 = 0 ∧
      (LlmFn.handler { httpMethod := "POST", body := some "\x7b\"prompt\":\"p\",\"model\":\"gemini\",\"type\":\"code\"\x7d" }
        { VITE_GEMINI_API_KEY := some "k", VITE_MISTRAL_API_KEY := none,
          VITE_GROQ_API_KEY := none }
        { gemini := fun _ _ => Except.ok "hello",
          mistral := fun _ _ _ => Except.error "boom",
          groq := fun _ _ _ => Except.error "boom" }).1.body =
        some (Json.obj [("error", Json.str
          ("Missing API keys: " ++ LlmFn.joinComma (LlmFn.validateApiKeys
              { VITE_GEMINI_API_KEY := some "k", VITE_MISTRAL_API_KEY := none,
                VITE_GROQ_API_KEY := none }) ++
            ". Please check your environment variables."))]) ∧
      ∀ k ∈ LlmFn.validateApiKeys
          { VITE_GEMINI_API_KEY := some "k", VITE_MISTRAL_API_KEY := none,
            VITE_GROQ_API_KEY := none }, k.data <:+:
        ("Missing API keys: " ++ LlmFn.joinComma (LlmFn.validateApiKeys
            { VITE_GEMINI_API_KEY := some "k", VITE_MISTRAL_API_KEY := none,
              VITE_GROQ_API_KEY := none }) ++
          ". Please check your environment variables.").data) :=
  handler_requires_all_keys _ _ _ (Json.obj
    [("prompt", Json.str "p"), ("model", Json.str "gemini"), ("type", Json.str "code")])
    rfl rfl rfl rfl rfl rfl (by decide)

/-- C10: every response the llm proxy handler produces, on every branch,
carries the CORS header allowing all origins. -/
theorem handler_always_cors (event : LlmFn.LlmEvent) (env : LlmFn.Env)
    (bk : LlmFn.Backends) :
    ("Access-Control-Allow-Origin", "*") ∈ (LlmFn.handler event env bk).1.headers := by
  have hc : ("Access-Control-Allow-Origin", "*") ∈ LlmFn.corsHeaders := by
    simp [LlmFn.corsHeaders]
  have hj : ("Access-Control-Allow-Origin", "*") ∈ LlmFn.jsonContentType :=
    List.mem_append_left _ hc
  unfold LlmFn.handler
  dsimp only
  repeat' split
  all_goals first | exact hc | exact hj

/-- C8 amended: how a resolved 200 backend reply whose payload lacks the
expected text field path is handled. The proxy handler turns an extraction
that yields no text into a 500 error response, never a 200 with an empty
result; the direct variant's guarded mistral and groq extraction raises the
invalid-structure error when the choices/message path is missing; but when
the path exists and only content is absent, the direct groq arm substitutes
the empty-object default and silently succeeds with an empty result instead
of raising. -/
theorem backend_missing_field_contract (rc : LlmFn.ChatResponse)
    (event : LlmFn.LlmEvent) (env : LlmFn.Env) (bk : LlmFn.Backends) (parsed : Json) :
    (DirectAI.chatGuard rc = false →
      DirectAI.mistralPlanExtract rc =
        Except.error "Invalid Mistral API response structure for plan generation." ∧
      DirectAI.groqPlanExtract rc =
        Except.error "Invalid Groq API response structure for plan generation.") ∧
    (DirectAI.chatGuard rc = true → DirectAI.contentHead rc = none →
      DirectAI.groqPlanExtract rc = Except.ok (Json.obj [])) ∧
    (∀ ro n, event.httpMethod = "POST" →
      parseJson (jsOrString event.body "\x7b\x7d") = Except.ok parsed →
      parsed.isNull = false →
      jsTruthy (parsed.getField "prompt") = true →
      jsTruthy (parsed.getField "model") = true →
      jsTruthy (parsed.getField "type") = true →
      LlmFn.validateApiKeys env = [] →
      LlmFn.runModel bk env (LlmFn.systemPromptFor (parsed.getField "type"))
          ((parsed.getField "prompt").getD Json.null)
          ((parsed.getField "model").getD Json.null) = (Except.ok ro, n) →
      jsTruthyString ro = false →
      LlmFn.handler event env bk =
        (LlmFn.error500 "No response received from AI model", n)) := by
  refine ⟨?_, ?_, ?_⟩
  · intro h
    constructor <;> simp [DirectAI.mistralPlanExtract, DirectAI.groqPlanExtract, h]
  · intro h1 h2
    simp only [DirectAI.groqPlanExtract, h1, h2, if_true, jsOrString]
    rfl
  · intro ro n hm hp hnull h1 h2 h3 hkeys hr hro
    simp [LlmFn.handler, hm, hp, hnull, h1, h2, h3, hkeys, hr, hro]

/-- C8 witness: a reply with no choices raises in both guarded arms; a reply
whose first message has no content passes the guard yet yields the parsed
empty-object default from the groq arm; and the proxy turns a resolved gemini
reply whose text is empty into a 500. -/
theorem backend_missing_field_contract_witness :
    (DirectAI.chatGuard { choices := [] } = false ∧
      (DirectAI.mistralPlanExtract { choices := [] } =
        Except.error "Invalid Mistral API response structure for plan generation." ∧
       DirectAI.groqPlanExtract { choices := [] } =
        Except.error "Invalid Groq API response structure for plan generation.")) ∧
    (DirectAI.chatGuard { choices := [{ message := some { content := none } }] } = true ∧
      DirectAI.groqPlanExtract { choices := [{ message := some { content := none } }] } =
        Except.ok (Json.obj [])) ∧
    LlmFn.handler
        { httpMethod := "POST",
          body := some "\x7b\"prompt\":\"p\",\"model\":\"gemini\",\"type\":\"code\"\x7d" }
        { VITE_GEMINI_API_KEY := some "k", VITE_MISTRAL_API_KEY := some "k",
          VITE_GROQ_API_KEY := some "k" }
        { gemini := fun _ _ => Except.ok "", mistral := fun _ _ _ => Except.error "boom",
          groq := fun _ _ _ => Except.error "boom" } =
      (LlmFn.error500 "No response received from AI model", 1) := by
  refine ⟨⟨rfl, ?_⟩, ⟨rfl, ?_⟩, ?_⟩
  · exact (backend_missing_field_contract { choices := [] }
      { httpMethod := "GET", body := none }
      { VITE_GEMINI_API_KEY := none, VITE_MISTRAL_API_KEY := none, VITE_GROQ_API_KEY := none }
      { gemini := fun _ _ => Except.error "boom", mistral := fun _ _ _ => Except.error "boom",
        groq := fun _ _ _ => Except.error "boom" } Json.null).1 rfl
  · exact (backend_missing_field_contract { choices := [{ message := some { content := none } }] }
      { httpMethod := "GET", body := none }
      { VITE_GEMINI_API_KEY := none, VITE_MISTRAL_API_KEY := none, VITE_GROQ_API_KEY := none }
      { gemini := fun _ _ => Except.error "boom", mistral := fun _ _ _ => Except.error "boom",
        groq := fun _ _ _ => Except.error "boom" } Json.null).2.1 rfl rfl
  · exact (backend_missing_field_contract { choices := [] }
      { httpMethod := "POST",
        body := some "\x7b\"prompt\":\"p\",\"model\":\"gemini\",\"type\":\"code\"\x7d" }
      { VITE_GEMINI_API_KEY := some "k", VITE_MISTRAL_API_KEY := some "k",
        VITE_GROQ_API_KEY := some "k" }
      { gemini := fun _ _ => Except.ok "", mistral := fun _ _ _ => Except.error "boom",
        groq := fun _ _ _ => Except.error "boom" }
      (Json.obj [("prompt", Json.str "p"), ("model", Json.str "gemini"),
        ("type", Json.str "code")])).2.2
      (some "") 1 rfl rfl rfl rfl rfl rfl rfl rfl rfl

/-- C8 counterexample: a 200 groq reply whose message carries no content is a
payload lacking the expected text field path, yet the direct variant's plan
generation for groq succeeds with the parsed empty-object default instead of
failing with a provider error. -/
theorem groq_missing_content_not_provider_error :
    (DirectAI.generateDetailedPlan { gemini := true, mistral := true, groq := true }
        { gemini := fun _ => Except.error "unused",
          mistral := fun _ _ => Except.error "unused",
          groq := fun _ _ => Except.ok { choices := [{ message := some { content := none } }] } }
        "p" "groq").1 = Except.ok (Json.obj []) ∧
    ((∃ e, (DirectAI.generateDetailedPlan { gemini := true, mistral := true, groq := true }
        { gemini := fun _ => Except.error "unused",
          mistral := fun _ _ => Except.error "unused",
          groq := fun _ _ => Except.ok { choices := [{ message := some { content := none } }] } }
        "p" "groq").1 = Except.error e) → False) := by
  refine ⟨rfl, ?_⟩
  rintro ⟨e, he⟩
  rw [show (DirectAI.generateDetailedPlan { gemini := true, mistral := true, groq := true }
      { gemini := fun _ => Except.error "unused",
        mistral := fun _ _ => Except.error "unused",
        groq := fun _ _ => Except.ok { choices := [{ message := some { content := none } }] } }
      "p" "groq").1 = Except.ok (Json.obj []) from rfl] at he
  exact Except.noConfusion he
